import Mathlib

/-!
Verification of the proxy-aware network transport selector (`shared/net`).

The module under study exports three things:
* `fetch` — a facade whose base transport is selected once, at module
  initialization, from the proxy environment variables and the
  `IS_STANDALONE` deployment flag;
* `mockFetchForTesting` — a scoped override hook for tests;
* `getAxiosSettings` — a parallel derivation of the same classification,
  producing an axios configuration object.

We shallowly embed the module: the process environment is a map from
variable names to optional string values, JavaScript truthiness of
environment strings is explicit (`undefined` and `""` are falsy), the
WHATWG `new URL` constructor is modelled by a scheme parser that may fail
(`Except`, mirroring the thrown `TypeError`), and `console.warn` calls are
counted.  Dispatcher construction (`new ProxyAgent`, `new
EnvHttpProxyAgent`) is modelled as total: its possible failure is
library-internal and outside the claims studied here.
-/

set_option autoImplicit false

namespace Net

/-- A process environment: a map from variable names to optional values. -/
def Env : Type := String → Option String

/-- JavaScript truthiness of an environment variable value:
`undefined` and the empty string are falsy. -/
def truthy : Option String → Bool
  | none => false
  | some s => s ≠ ""

/-- JavaScript `a || b` on environment variable values. -/
def jsOr (a b : Option String) : Option String :=
  if truthy a then a else b

/-- Normalise a value the way a JavaScript `if (v)` guard does:
a falsy value behaves exactly like `undefined`. -/
def jsTruthyVal (o : Option String) : Option String :=
  if truthy o then o else none

/-- Code `const proxy = (https_proxy || HTTPS_PROXY) || (http_proxy || HTTP_PROXY)`
(lines 127–129 of the source). -/
def proxyVal (env : Env) : Option String :=
  jsOr (jsOr (env "https_proxy") (env "HTTPS_PROXY"))
       (jsOr (env "http_proxy") (env "HTTP_PROXY"))

/-- Guard `if (process.env.IS_STANDALONE)` — the deployment-mode flag. -/
def isStandalone (env : Env) : Bool :=
  truthy (env "IS_STANDALONE")

/-! ### A model of the WHATWG `new URL` constructor

Only what the module observes is modelled: whether the constructor throws,
and the scheme (`url.protocol` with the trailing `:` removed, which is what
`protocol.replace(":", "")` computes).  A URL string must start with
`ALPHA *( ALPHA / DIGIT / "+" / "-" / "." ) ":"`; the scheme is
lower-cased.  For the special schemes (http, https, ws, wss, ftp) the
constructor additionally rejects an empty host. -/

/-- Characters allowed after the first character of a URL scheme. -/
def isSchemeChar (c : Char) : Bool :=
  c.isAlphanum || c = '+' || c = '-' || c = '.'

/-- Split a character list at the first `:`, requiring every character
before it to be a scheme character.  Returns (scheme characters, rest). -/
def splitSchemeAux : List Char → Option (List Char × List Char)
  | [] => none
  | c :: rest =>
    if c = ':' then some ([], rest)
    else if isSchemeChar c then
      (splitSchemeAux rest).map (fun p => (c :: p.1, p.2))
    else none

/-- The WHATWG special schemes that require a non-empty host. -/
def specialSchemes : List String :=
  ["http", "https", "ws", "wss", "ftp"]

/-- The authority text of the remainder after the scheme: leading slashes
are skipped, the host runs until `/`, `?` or `#`. -/
def hostChars (rest : List Char) : List Char :=
  (rest.dropWhile (fun c => c = '/')).takeWhile
    (fun c => ¬(c = '/' || c = '?' || c = '#'))

/-- The scheme of a URL string per `new URL`, without the trailing colon,
or `none` when the constructor throws. -/
def urlScheme (s : String) : Option String :=
  match s.data with
  | [] => none
  | c :: _ =>
    if c.isAlpha then
      match splitSchemeAux s.data with
      | some (schemeChars, rest) =>
        let scheme := String.mk (schemeChars.map Char.toLower)
        if scheme ∈ specialSchemes && (hostChars rest).isEmpty then none
        else some scheme
      | none => none
    else none

/-- Operation `new URL(s).protocol.replace(":", "")` as a throwing operation:
`Except.error` models the thrown `TypeError: Invalid URL`. -/
def parseURLE (s : String) : Except String String :=
  match urlScheme s with
  | some scheme => Except.ok scheme
  | none => Except.error "Invalid URL"

/-! ### Transport selection at module initialization (the `fetch` IIFE) -/

/-- The protocol classes distinguished by the `if`-chain of the source
(lines 137–159) together with the no-proxy class. -/
inductive ProtocolClass where
  | noProxy
  | socks
  | socks4
  | socks5
  | http
  | https
  | unsupported
  deriving DecidableEq, Repr

/-- The classification the source performs on
`proxyUrl.protocol.replace(":", "")`. -/
def schemeClass (s : String) : ProtocolClass :=
  if s = "socks" then .socks
  else if s = "socks4" then .socks4
  else if s = "socks5" then .socks5
  else if s = "http" then .http
  else if s = "https" then .https
  else .unsupported

/-- The dispatcher objects that can be written into the module-global
`configuredDispatcher` slot. -/
inductive Dispatcher where
  | proxyAgent (uri : String)
  | envHttpProxyAgent
  deriving DecidableEq, Repr

/-- The base transports a call can be delegated to. -/
inductive BaseTransport where
  /-- Transport `globalThis.fetch`, the host-provided (VSCode) transport. -/
  | hostFetch
  /-- undici fetch with `dispatcher: new ProxyAgent({ uri })`. -/
  | proxyAgentFetch (uri : String)
  /-- undici fetch with `dispatcher: new EnvHttpProxyAgent()`. -/
  | envProxyFetch
  /-- plain undici fetch, no dispatcher option. -/
  | undiciFetch
  deriving DecidableEq, Repr

/-- The observable outcome of module initialization: the selected base
transport, the final value of the `configuredDispatcher` slot, and the
number of `console.warn` calls. -/
structure InitResult where
  base : BaseTransport
  dispatcher : Option Dispatcher
  warnings : Nat
  deriving DecidableEq, Repr

/-- The `try` block of the `fetch` IIFE (source lines 125–164): an
`Except.error` is a `new URL` throw escaping to the `catch`. -/
def initFetchTry (env : Env) : Except String InitResult :=
  match jsTruthyVal (proxyVal env) with
  | some proxy =>
    match parseURLE proxy with
    | .error e => .error e
    | .ok protocol =>
    match schemeClass protocol with
    | .socks | .socks4 | .socks5 =>
      .ok ⟨.proxyAgentFetch proxy, some (.proxyAgent proxy), 0⟩
    | .http | .https =>
      if isStandalone env then
        .ok ⟨.envProxyFetch, some .envHttpProxyAgent, 0⟩
      else
        .ok ⟨.hostFetch, none, 0⟩
    | _ =>
      .ok ⟨.hostFetch, none, 1⟩
  | none =>
    if isStandalone env then
      .ok ⟨.undiciFetch, none, 0⟩
    else
      .ok ⟨.hostFetch, none, 0⟩

/-- Module initialization of the exported `fetch` (the whole IIFE,
source lines 120–174): the `catch` block (lines 165–171) logs one warning
and falls back to plain undici fetch in standalone mode, to the host fetch
otherwise.  Total by construction: initialization never throws. -/
def initFetch (env : Env) : InitResult :=
  match initFetchTry env with
  | .ok r => r
  | .error _ =>
    if isStandalone env then
      { base := .undiciFetch, dispatcher := none, warnings := 1 }
    else
      { base := .hostFetch, dispatcher := none, warnings := 1 }

/-- One invocation of the exported facade (source line 173):
`(mockFetch || baseFetch)(input, init)`.  The override slot is read at
call time, so `mock` is the slot's current value at that invocation. -/
def netFetch {α β γ : Type} (mock : Option (α → β → γ))
    (base : α → β → γ) (input : α) (init : β) : γ :=
  (mock.getD base) input init

/-! ### The test override hook `mockFetchForTesting`

The `mockFetch` slot is the explicit state.  A callback is a function from
the slot value it observes to an outcome together with the slot value it
leaves behind (a callback may itself install and restore overrides).  A
promise is represented by its eventual settlement (`Except`: `ok` is
fulfilment, `error` rejection). -/

/-- How a callback completes synchronously: a plain return value, a thrown
error, or a pending promise with the given eventual settlement. -/
inductive CbOutcome (V E : Type) where
  | ret (v : V)
  | thrown (e : E)
  | pend (settled : Except E V)

/-- Promise `p.finally(f)`: runs the side effect on the state when `p` settles and
re-surfaces the settlement unchanged (the `finally` callback here is an
assignment and cannot throw). -/
def promiseFinally {V E σ : Type} (p : Except E V) (f : σ → σ) (s : σ) :
    Except E V × σ :=
  (p, f s)

/-- What a run of `mockFetchForTesting` does, observed at the two times
the claims speak about: when the call returns (or throws), and after any
returned promise has settled.  For the synchronous outcomes the two
coincide. -/
structure MockRun (F V E : Type) where
  outcome : CbOutcome V E
  slotAtReturn : Option F
  slotAfterSettle : Option F

/-- Function `mockFetchForTesting(theFetch, callback)` (source lines 184–203) as a
state-passing function on the `mockFetch` slot.  `slot` is the slot value
when the call is made; the callback runs with `some theFetch` installed
and returns its outcome plus the slot value its own synchronous effects
leave behind.  The restore writes `originalMockFetch` absolutely: in the
`finally` block when the callback returned a non-promise or threw, and in
`result.finally(...)` — deferred to settlement — when it returned a
promise. -/
def mockFetchForTesting {F V E : Type} (theFetch : F)
    (callback : Option F → CbOutcome V E × Option F)
    (slot : Option F) : MockRun F V E :=
  let originalMockFetch := slot
  match callback (some theFetch) with
  | (.ret v, _) =>
    { outcome := .ret v,
      slotAtReturn := originalMockFetch,
      slotAfterSettle := originalMockFetch }
  | (.thrown e, _) =>
    { outcome := .thrown e,
      slotAtReturn := originalMockFetch,
      slotAfterSettle := originalMockFetch }
  | (.pend p, slotAfterCb) =>
    let r := promiseFinally p (fun _ => originalMockFetch) slotAfterCb
    { outcome := .pend r.1,
      slotAtReturn := slotAfterCb,
      slotAfterSettle := r.2 }

/-! ### `getAxiosSettings` -/

/-- The shape of the configuration object `getAxiosSettings` returns:
either empty, or `{ adapter: "fetch", fetch }` where `fetch` is the
module's facade. -/
structure AxiosSettings where
  adapter : Option String
  usesFacadeFetch : Bool
  deriving DecidableEq, Repr

/-- The empty configuration `{}`. -/
def emptySettings : AxiosSettings :=
  { adapter := none, usesFacadeFetch := false }

/-- The configuration `{ adapter: "fetch", fetch }` routing through the
facade. -/
def fetchAdapterSettings : AxiosSettings :=
  { adapter := some "fetch", usesFacadeFetch := true }

/-- The outer `try` block of `getAxiosSettings` (source lines 223–266).
The inner `try`/`catch` around `new URL` (lines 234–246) swallows the
parse error and leaves `isSocksProxy = false`; nothing else in the block
can throw, so the outer `catch` is unreachable in the model, exactly as in
the source. -/
def getAxiosSettingsBody (env : Env) : Except String AxiosSettings :=
  let isSocksProxy : Bool :=
    match jsTruthyVal (proxyVal env) with
    | some proxy =>
      match parseURLE proxy with
      | .ok protocol =>
        match schemeClass protocol with
        | .socks | .socks4 | .socks5 => true
        | _ => false
      | .error _ => false
    | none => false
  let needsFetchAdapter := isSocksProxy || isStandalone env
  if needsFetchAdapter then .ok fetchAdapterSettings
  else .ok emptySettings

/-- Function `getAxiosSettings()` as its caller observes it: the outer `catch`
(source lines 267–270) turns any escaping error into the empty
configuration, so no error ever propagates. -/
def getAxiosSettingsE (env : Env) : Except String AxiosSettings :=
  match getAxiosSettingsBody env with
  | .ok s => .ok s
  | .error _ => .ok emptySettings

/-- The value `getAxiosSettings()` returns. -/
def getAxiosSettings (env : Env) : AxiosSettings :=
  match getAxiosSettingsBody env with
  | .ok s => s
  | .error _ => emptySettings

/-! ### Spec-side definitions (for refinement claims)

These follow the wording of the specification, to be compared with the
definitions above, which are translated from the source. -/

/-- The transport strategies named by the specification (§4.2/§4.3). -/
inductive TransportStrategy where
  | nativeHost
  | proxyDispatcher
  | envProxyDispatcher
  | unmodifiedDefault
  deriving DecidableEq, Repr

/-- The §4.2 decision table of the specification, written from the spec's
words: rows are protocol classes, columns the deployment mode
(`standalone = true` is the second column). -/
def specStrategy : ProtocolClass → Bool → TransportStrategy
  | .noProxy, false => .nativeHost
  | .noProxy, true => .unmodifiedDefault
  | .socks, _ => .proxyDispatcher
  | .socks4, _ => .proxyDispatcher
  | .socks5, _ => .proxyDispatcher
  | .http, false => .nativeHost
  | .https, false => .nativeHost
  | .http, true => .envProxyDispatcher
  | .https, true => .envProxyDispatcher
  | .unsupported, _ => .nativeHost

/-- Which strategy a selected base transport realises:
the host fetch is the native host transport, a `ProxyAgent`-backed fetch
the proxy dispatcher strategy, an `EnvHttpProxyAgent`-backed fetch the
environment proxy dispatcher strategy, and the plain undici fetch the
unmodified default. -/
def strategyOf : BaseTransport → TransportStrategy
  | .hostFetch => .nativeHost
  | .proxyAgentFetch _ => .proxyDispatcher
  | .envProxyFetch => .envProxyDispatcher
  | .undiciFetch => .unmodifiedDefault

/-- The protocol class of an environment: `noProxy` when no proxy variable
is truthy, the class of the parsed scheme when the proxy URL parses, and
`none` when the URL constructor throws (a case outside the §4.2 table). -/
def classifyEnv (env : Env) : Option ProtocolClass :=
  match jsTruthyVal (proxyVal env) with
  | some proxy => (urlScheme proxy).map schemeClass
  | none => some .noProxy

/-- Spec-side proxy resolution: the first value in the list that is set
and non-empty. -/
def firstNonEmpty : List (Option String) → Option String
  | [] => none
  | v :: rest => if truthy v then v else firstNonEmpty rest

/-- The same environment with the four proxy variables unset and
everything else unchanged. -/
def clearProxies (env : Env) : Env := fun k =>
  if k = "https_proxy" || k = "HTTPS_PROXY" || k = "http_proxy" || k = "HTTP_PROXY"
  then none else env k

/-! ### Concrete environments used as witnesses and counterexamples -/

/-- Environment `https_proxy=socks5://proxy.local:1080`, `IS_STANDALONE=true`. -/
def envSocks5Standalone : Env := fun k =>
  if k = "https_proxy" then some "socks5://proxy.local:1080"
  else if k = "IS_STANDALONE" then some "true" else none

/-- Environment `https_proxy=ftp://proxy:21`, `IS_STANDALONE=1`. -/
def envFtpStandalone : Env := fun k =>
  if k = "https_proxy" then some "ftp://proxy:21"
  else if k = "IS_STANDALONE" then some "1" else none

/-- Environment `https_proxy=not-a-url`, `IS_STANDALONE=1`. -/
def envBadUrlStandalone : Env := fun k =>
  if k = "https_proxy" then some "not-a-url"
  else if k = "IS_STANDALONE" then some "1" else none

/-- Only `IS_STANDALONE=true` set: no proxy configured, standalone mode. -/
def envOnlyStandalone : Env := fun k =>
  if k = "IS_STANDALONE" then some "true" else none

/-! ## Claims -/

/-- The scheme classifier never produces the no-proxy class: every string
falls into one of the six scheme classes. -/
theorem schemeClass_ne_noProxy (s : String) :
    schemeClass s ≠ ProtocolClass.noProxy := by
  unfold schemeClass
  split_ifs <;> simp

/-- Claim C1: For every supported proxy scheme and both deployment modes,
the transport selected at module initialization of the exported `fetch`
realises exactly the strategy of the §4.2 decision table:
socks/socks4/socks5 give a `ProxyAgent`-backed transport in both modes,
http/https give the host fetch when embedded and an
`EnvHttpProxyAgent`-backed transport when standalone, no proxy gives the
host fetch when embedded and plain undici fetch when standalone, and an
unsupported scheme gives the host fetch in both modes. -/
theorem C1_transport_selection_matches_table (env : Env) (pc : ProtocolClass)
    (h : classifyEnv env = some pc) :
    strategyOf (initFetch env).base = specStrategy pc (isStandalone env) := by
  unfold classifyEnv at h
  cases hp : jsTruthyVal (proxyVal env) with
  | none =>
    rw [hp] at h
    have hpc : ProtocolClass.noProxy = pc := by simpa using h
    subst hpc
    cases hs : isStandalone env <;>
      simp [initFetch, initFetchTry, hp, hs, specStrategy, strategyOf]
  | some proxy =>
    rw [hp] at h
    cases hu : urlScheme proxy with
    | none => simp [hu] at h
    | some protocol =>
      have hpc : schemeClass protocol = pc := by simpa [hu] using h
      subst hpc
      cases hc : schemeClass protocol <;>
        cases hs : isStandalone env <;>
          first
          | exact absurd hc (schemeClass_ne_noProxy protocol)
          | simp [initFetch, initFetchTry, hp, parseURLE, hu, hc, hs,
                  specStrategy, strategyOf]

/-- Witness for C1 at `https_proxy=socks5://proxy.local:1080`,
`IS_STANDALONE=true`. -/
theorem C1_transport_selection_matches_table_witness :
    classifyEnv envSocks5Standalone = some ProtocolClass.socks5 ∧
    strategyOf (initFetch envSocks5Standalone).base =
      specStrategy ProtocolClass.socks5 (isStandalone envSocks5Standalone) :=
  ⟨by decide, C1_transport_selection_matches_table envSocks5Standalone
      ProtocolClass.socks5 (by decide)⟩

/-- Claim C6: The proxy URL used for transport selection is the first
non-empty value among `https_proxy`, `HTTPS_PROXY`, `http_proxy`,
`HTTP_PROXY`, in that order. -/
theorem C6_proxy_variable_precedence (env : Env) :
    jsTruthyVal (proxyVal env) =
      firstNonEmpty [env "https_proxy", env "HTTPS_PROXY",
                     env "http_proxy", env "HTTP_PROXY"] := by
  unfold proxyVal jsOr jsTruthyVal
  cases h1 : truthy (env "https_proxy") <;>
  cases h2 : truthy (env "HTTPS_PROXY") <;>
  cases h3 : truthy (env "http_proxy") <;>
  cases h4 : truthy (env "HTTP_PROXY") <;>
    simp [firstNonEmpty, h1, h2, h3, h4]

/-- Claim C8: For every proxy URL that parses to a scheme outside
{http, https, socks, socks4, socks5}, in both deployment modes, transport
selection resolves to the host-native default, constructs no dispatcher,
and logs exactly one warning (and cannot throw: `initFetch` is total). -/
theorem C8_unsupported_scheme_default (env : Env) (proxy protocol : String)
    (hp : jsTruthyVal (proxyVal env) = some proxy)
    (hu : urlScheme proxy = some protocol)
    (hc : schemeClass protocol = ProtocolClass.unsupported) :
    initFetch env = { base := .hostFetch, dispatcher := none, warnings := 1 } := by
  simp [initFetch, initFetchTry, hp, parseURLE, hu, hc]

/-- Witness for C8 at `https_proxy=ftp://proxy:21`, `IS_STANDALONE=1`. -/
theorem C8_unsupported_scheme_default_witness :
    jsTruthyVal (proxyVal envFtpStandalone) = some "ftp://proxy:21" ∧
    urlScheme "ftp://proxy:21" = some "ftp" ∧
    schemeClass "ftp" = ProtocolClass.unsupported ∧
    initFetch envFtpStandalone =
      { base := .hostFetch, dispatcher := none, warnings := 1 } :=
  ⟨by decide, by decide, by decide,
    C8_unsupported_scheme_default envFtpStandalone "ftp://proxy:21" "ftp"
      (by decide) (by decide) (by decide)⟩

/-- Claim C9, as stated, is false: with no proxy configured in standalone
mode the selected transport is the plain undici fetch, but no dispatcher
is constructed — the `configuredDispatcher` slot stays unset (source line
162 assigns `undiciFetch` directly without any `new`), contradicting "a
dispatcher with no proxy configuration is constructed". -/
theorem C9_counterexample_no_dispatcher :
    (initFetch envOnlyStandalone).base = BaseTransport.undiciFetch ∧
    (initFetch envOnlyStandalone).dispatcher = none := by
  decide

/-- Claim C9 as amended: When no proxy variable is truthy and
`IS_STANDALONE` is set, the selected transport is plain undici fetch —
routing requests off the host-native transport — with no warning; no
dispatcher is constructed (the dispatcher slot remains empty). -/
theorem C9_standalone_no_proxy_undici (env : Env)
    (hp : jsTruthyVal (proxyVal env) = none)
    (hs : isStandalone env = true) :
    initFetch env = { base := .undiciFetch, dispatcher := none, warnings := 0 } := by
  simp [initFetch, initFetchTry, hp, hs]

/-- Witness for amended C9 at the environment with only
`IS_STANDALONE=true`. -/
theorem C9_standalone_no_proxy_undici_witness :
    jsTruthyVal (proxyVal envOnlyStandalone) = none ∧
    isStandalone envOnlyStandalone = true ∧
    initFetch envOnlyStandalone =
      { base := .undiciFetch, dispatcher := none, warnings := 0 } :=
  ⟨by decide, by decide,
    C9_standalone_no_proxy_undici envOnlyStandalone (by decide) (by decide)⟩

/-- The four proxy variables of a cleared environment are unset and
`IS_STANDALONE` is untouched, so no proxy is resolved there. -/
theorem proxyVal_clearProxies (env : Env) :
    proxyVal (clearProxies env) = none := by
  have h1 : clearProxies env "https_proxy" = none := rfl
  have h2 : clearProxies env "HTTPS_PROXY" = none := rfl
  have h3 : clearProxies env "http_proxy" = none := rfl
  have h4 : clearProxies env "HTTP_PROXY" = none := rfl
  simp [proxyVal, jsOr, h1, h2, h3, h4, truthy]

/-- Claim C4: For every truthy proxy value that does not parse as a URL, in
both deployment modes, initialization of the exported `fetch` does not
throw (the parse error is caught: `initFetch` is total), logs exactly one
warning, and selects the same transport and dispatcher as the same
environment with no proxy configured. -/
theorem C4_malformed_proxy_fallback (env : Env) (proxy : String)
    (hp : jsTruthyVal (proxyVal env) = some proxy)
    (hu : urlScheme proxy = none) :
    (initFetch env).base = (initFetch (clearProxies env)).base ∧
    (initFetch env).dispatcher = (initFetch (clearProxies env)).dispatcher ∧
    (initFetch env).warnings = 1 := by
  have hcp : jsTruthyVal (proxyVal (clearProxies env)) = none := by
    rw [proxyVal_clearProxies]; rfl
  have hss : isStandalone (clearProxies env) = isStandalone env := rfl
  cases hs : isStandalone env <;>
    simp [initFetch, initFetchTry, hp, parseURLE, hu, hcp, hss, hs]

/-- Claim C5: On each invocation of the exported facade: with an override
`m` installed in the slot the call is exactly one application of `m` to
the same two arguments, the base transport unused; with no override it is
one application of the base transport.  `netFetch` takes the slot's value
at the time of the call, so an override installed after module load takes
effect on subsequent calls. -/
theorem C5_facade_dispatch {α β γ : Type} (mock : Option (α → β → γ))
    (base : α → β → γ) (input : α) (req : β) :
    (∀ m, mock = some m → netFetch mock base input req = m input req) ∧
    (mock = none → netFetch mock base input req = base input req) := by
  constructor
  · rintro m rfl; rfl
  · rintro rfl; rfl

/-- Witness for C5: an installed override computes the call, the base is
ignored; with the slot empty the base computes the call. -/
theorem C5_facade_dispatch_witness :
    netFetch (some (fun a b => a + b)) (fun _ _ => 0) 2 3 = 5 ∧
    netFetch (none : Option (Nat → Nat → Nat)) (fun a b => a * b) 2 3 = 6 :=
  ⟨(C5_facade_dispatch (some (fun a b => a + b)) (fun _ _ => 0) 2 3).1
      (fun a b => a + b) rfl,
   (C5_facade_dispatch none (fun a b => a * b) 2 3).2 rfl⟩

/-- Claim C2: function `mockFetchForTesting` restores the override slot to its value
from immediately before the installation, on every exit path: a
synchronous return value is preceded by the restore; a synchronous throw
restores and propagates the error; a returned promise defers the restore
until settlement (at return time the slot still holds what the callback
left) and re-surfaces the settlement unchanged.  The restore target is
`slot` — the immediately enclosing state, which may itself be an
override — never unconditionally "no override". -/
theorem C2_mock_restoration {F V E : Type} (theFetch : F)
    (callback : Option F → CbOutcome V E × Option F) (slot : Option F) :
    (∀ v s2, callback (some theFetch) = (.ret v, s2) →
      mockFetchForTesting theFetch callback slot = ⟨.ret v, slot, slot⟩) ∧
    (∀ e s2, callback (some theFetch) = (.thrown e, s2) →
      mockFetchForTesting theFetch callback slot = ⟨.thrown e, slot, slot⟩) ∧
    (∀ p s2, callback (some theFetch) = (.pend p, s2) →
      mockFetchForTesting theFetch callback slot = ⟨.pend p, s2, slot⟩) := by
  refine ⟨?_, ?_, ?_⟩ <;> intro x s2 h <;>
    simp [mockFetchForTesting, h, promiseFinally]

/-- Witness for C2: a synchronous return restores the enclosing override
`some 3` immediately; a pending promise leaves the installed `some 7` at
return and restores `some 3` only at settlement, re-surfacing the
fulfilment. -/
theorem C2_mock_restoration_witness :
    @mockFetchForTesting Nat Nat Nat 7 (fun s => (.ret 1, s)) (some 3) =
      ⟨.ret 1, some 3, some 3⟩ ∧
    @mockFetchForTesting Nat Nat Nat 7 (fun s => (.pend (.ok 2), s)) (some 3) =
      ⟨.pend (.ok 2), some 7, some 3⟩ :=
  ⟨(C2_mock_restoration 7 (fun s => (.ret 1, s)) (some 3)).1 1 (some 7) rfl,
   (C2_mock_restoration 7 (fun s => (.pend (.ok 2), s)) (some 3)).2.2
      (.ok 2) (some 7) rfl⟩

/-- Claim C3, as stated, is false: with `https_proxy=ftp://proxy:21` and
`IS_STANDALONE=1`, `getAxiosSettings` returns the non-empty fetch-adapter
configuration, yet the facade's base transport is the host fetch — so
"non-empty configuration iff the facade is backed by a non-host
transport" fails in the only-if direction at this input. -/
theorem C3_counterexample_unsupported_standalone :
    ¬ (getAxiosSettings envFtpStandalone ≠ emptySettings ↔
       (initFetch envFtpStandalone).base ≠ BaseTransport.hostFetch) := by
  decide

/-- Claim C3 as amended: `getAxiosSettings` always returns either the
fetch-adapter configuration (routing through the facade) or the empty
one, and it returns the former exactly when the facade is backed by a
SOCKS `ProxyAgent` (in any mode) or `IS_STANDALONE` is set — regardless,
in the latter case, of which transport the facade actually uses (with an
unsupported proxy scheme in standalone mode the settings still route
through the facade although the facade is the host fetch). -/
theorem C3_settings_iff_socks_or_standalone (env : Env) :
    (getAxiosSettings env = fetchAdapterSettings ∨
      getAxiosSettings env = emptySettings) ∧
    (getAxiosSettings env = fetchAdapterSettings ↔
      ((∃ uri, (initFetch env).base = BaseTransport.proxyAgentFetch uri) ∨
        isStandalone env = true)) := by
  cases hp : jsTruthyVal (proxyVal env) with
  | none =>
    cases hs : isStandalone env <;>
      simp [getAxiosSettings, getAxiosSettingsBody, initFetch, initFetchTry,
            hp, hs, fetchAdapterSettings, emptySettings]
  | some proxy =>
    cases hu : urlScheme proxy with
    | none =>
      cases hs : isStandalone env <;>
        simp [getAxiosSettings, getAxiosSettingsBody, initFetch, initFetchTry,
              hp, parseURLE, hu, hs, fetchAdapterSettings, emptySettings]
    | some protocol =>
      cases hc : schemeClass protocol <;>
        cases hs : isStandalone env <;>
          first
          | exact absurd hc (schemeClass_ne_noProxy protocol)
          | simp [getAxiosSettings, getAxiosSettingsBody, initFetch,
                  initFetchTry, hp, parseURLE, hu, hc, hs,
                  fetchAdapterSettings, emptySettings]

/-- Claim C7, as stated, is false: with `https_proxy=not-a-url` and
`IS_STANDALONE=1` an internal error occurs (the proxy URL fails to
parse — `new URL` throws, caught by the inner handler), yet
`getAxiosSettings` returns the non-empty fetch-adapter configuration,
not the empty one. -/
theorem C7_counterexample_parse_error_nonempty :
    urlScheme "not-a-url" = none ∧
    getAxiosSettings envBadUrlStandalone ≠ emptySettings := by
  decide

/-- Claim C7 as amended: `getAxiosSettings` never throws — its caller always
observes an ordinary return value.  A proxy URL parse failure, however,
is caught by the inner handler and treated as "no SOCKS proxy", not as
"return empty": the result then equals the result for the same
environment with no proxy configured, which in standalone mode is the
non-empty fetch-adapter configuration.  Only errors reaching the outer
handler yield the empty configuration. -/
theorem C7_never_throws_parse_error_local (env : Env) :
    getAxiosSettingsE env = Except.ok (getAxiosSettings env) ∧
    (∀ proxy, jsTruthyVal (proxyVal env) = some proxy →
      urlScheme proxy = none →
      getAxiosSettings env = getAxiosSettings (clearProxies env)) := by
  constructor
  · cases h : getAxiosSettingsBody env <;>
      simp [getAxiosSettingsE, getAxiosSettings, h]
  · intro proxy hp hu
    have hcp : jsTruthyVal (proxyVal (clearProxies env)) = none := by
      rw [proxyVal_clearProxies]; rfl
    have hss : isStandalone (clearProxies env) = isStandalone env := rfl
    cases hs : isStandalone env <;>
      simp [getAxiosSettings, getAxiosSettingsBody, hp, parseURLE, hu,
            hcp, hss, hs]

/-- Witness for amended C7 at `https_proxy=not-a-url`, `IS_STANDALONE=1`. -/
theorem C7_never_throws_parse_error_local_witness :
    getAxiosSettingsE envBadUrlStandalone =
      Except.ok (getAxiosSettings envBadUrlStandalone) ∧
    getAxiosSettings envBadUrlStandalone =
      getAxiosSettings (clearProxies envBadUrlStandalone) :=
  ⟨(C7_never_throws_parse_error_local envBadUrlStandalone).1,
   (C7_never_throws_parse_error_local envBadUrlStandalone).2 "not-a-url"
      (by decide) (by decide)⟩

/-- Two environments that agree on the five consulted variables but
differ elsewhere: the first one also sets `no_proxy`. -/
def envSocksListedA : Env := fun k =>
  if k = "https_proxy" then some "socks://p:1080"
  else if k = "IS_STANDALONE" then some "1"
  else if k = "no_proxy" then some "localhost,example.com" else none

/-- Companion to `envSocksListedA`: same five consulted variables, a
different unrelated variable set. -/
def envSocksListedB : Env := fun k =>
  if k = "https_proxy" then some "socks://p:1080"
  else if k = "IS_STANDALONE" then some "1"
  else if k = "SOME_OTHER_VAR" then some "x" else none

/-- Claim C10: Transport selection and the axios settings depend on the
environment only through `https_proxy`, `HTTPS_PROXY`, `http_proxy`,
`HTTP_PROXY` and `IS_STANDALONE`: two environments agreeing on those five
variables — whatever `no_proxy`/`NO_PROXY` or any other variable holds —
yield the same `initFetch` result and the same `getAxiosSettings`
result. -/
theorem C10_only_five_variables_matter (env1 env2 : Env)
    (h1 : env1 "https_proxy" = env2 "https_proxy")
    (h2 : env1 "HTTPS_PROXY" = env2 "HTTPS_PROXY")
    (h3 : env1 "http_proxy" = env2 "http_proxy")
    (h4 : env1 "HTTP_PROXY" = env2 "HTTP_PROXY")
    (h5 : env1 "IS_STANDALONE" = env2 "IS_STANDALONE") :
    initFetch env1 = initFetch env2 ∧
    getAxiosSettings env1 = getAxiosSettings env2 := by
  have hpv : proxyVal env1 = proxyVal env2 := by
    unfold proxyVal; rw [h1, h2, h3, h4]
  have hst : isStandalone env1 = isStandalone env2 := by
    unfold isStandalone; rw [h5]
  constructor
  · unfold initFetch initFetchTry; rw [hpv, hst]
  · unfold getAxiosSettings getAxiosSettingsBody; rw [hpv, hst]

/-- Witness for C10: the same proxy variables with and without a
`no_proxy` list (and an unrelated variable) give identical results. -/
theorem C10_only_five_variables_matter_witness :
    initFetch envSocksListedA = initFetch envSocksListedB ∧
    getAxiosSettings envSocksListedA = getAxiosSettings envSocksListedB :=
  C10_only_five_variables_matter envSocksListedA envSocksListedB
    (by decide) (by decide) (by decide) (by decide) (by decide)

/-- Witness for C4 at `https_proxy=not-a-url`, `IS_STANDALONE=1`. -/
theorem C4_malformed_proxy_fallback_witness :
    jsTruthyVal (proxyVal envBadUrlStandalone) = some "not-a-url" ∧
    urlScheme "not-a-url" = none ∧
    ((initFetch envBadUrlStandalone).base =
        (initFetch (clearProxies envBadUrlStandalone)).base ∧
      (initFetch envBadUrlStandalone).dispatcher =
        (initFetch (clearProxies envBadUrlStandalone)).dispatcher ∧
      (initFetch envBadUrlStandalone).warnings = 1) :=
  ⟨by decide, by decide,
    C4_malformed_proxy_fallback envBadUrlStandalone "not-a-url"
      (by decide) (by decide)⟩

end Net
